import Mathlib

set_option maxRecDepth 8000

/-!
Verification development for the fund-analysis-system repository.

The Python sources under `backend/app/services` are shallowly embedded:

* `document_processor.py` — field extractors (`parse_date`, `parse_amount`),
  section/record scanners (`parse_capital_calls`, `parse_distributions`,
  `parse_adjustments`), `parse_fund_info`, `chunk_text`, and the stateful
  `DocumentProcessor.process_document` pipeline (modelled in an `Except`
  monad with an explicit database state, so that the commit/rollback
  transaction semantics is visible).
* `metrics_calculator.py` — a pure model over a list-based database
  (`calculate_pic`, `calculate_total_distributions`, `calculate_dpi`,
  `calculate_nav`, `calculate_rvpi`, `calculate_tvpi`, `_get_cash_flows`),
  plus an `Except`-based variant (suffix `X`) over a query oracle that makes
  the `try`/`except` structure of the Python methods explicit.

Numeric amounts (Python `float`／`Decimal`) are modelled as `ℚ`; Python's
`round(x, n)` is modelled with Mathlib's `round` (the two differ only on
exact decimal ties, which none of the statements below depend on).
Python `datetime` values are modelled by `PDate` (dates only: all dates
produced by the pipeline have zero time-of-day).
-/

/-- A calendar date, modelling the `datetime` values produced by `parse_date`. -/
structure PDate where
  year : ℕ
  month : ℕ
  day : ℕ
deriving DecidableEq

/-- Gregorian leap-year test, as used by `datetime` validation. -/
def isLeapYear (y : ℕ) : Bool :=
  (y % 4 == 0 && y % 100 != 0) || y % 400 == 0

/-- Number of days in a month, as used by `datetime` validation. -/
def daysInMonth (y m : ℕ) : ℕ :=
  if m = 2 then (if isLeapYear y then 29 else 28)
  else if m = 4 ∨ m = 6 ∨ m = 9 ∨ m = 11 then 30
  else 31

/-- Model of the `datetime(year, month, day)` constructor: `some` on a valid
calendar date (year in `MINYEAR..MAXYEAR`), `none` when the constructor would
raise `ValueError`. -/
def mkValidDate (y m d : ℕ) : Option PDate :=
  if 1 ≤ y ∧ y ≤ 9999 ∧ 1 ≤ m ∧ m ≤ 12 ∧ 1 ≤ d ∧ d ≤ daysInMonth y m then
    some ⟨y, m, d⟩
  else none

/-- Chronological order on dates (lexicographic on year, month, day), the
order `datetime` comparison and SQL `ORDER BY` use. -/
def dateLe (a b : PDate) : Prop :=
  a.year < b.year ∨
    (a.year = b.year ∧ (a.month < b.month ∨ (a.month = b.month ∧ a.day ≤ b.day)))

instance : DecidableRel dateLe := fun a b => by
  unfold dateLe
  infer_instance

theorem dateLe_refl (a : PDate) : dateLe a a := by
  unfold dateLe
  omega

/-! ### Character-level utilities shared by the regex models -/

/-- Python's regex `\s` class (ASCII range), also `str.strip` whitespace. -/
def isWsChar (c : Char) : Bool :=
  c = ' ' || c = '\t' || c = '\n' || c = '\r' || c = '\x0b' || c = '\x0c'

/-- Python's regex `\w` class (ASCII range). -/
def isWordChar (c : Char) : Bool :=
  c.isAlphanum || c = '_'

/-- Characters kept by `parse_amount`'s `re.sub(r"[^\d.-]", "", s)`. -/
def isAmountChar (c : Char) : Bool :=
  c.isDigit || c = '.' || c = '-'

/-- Characters matched by the `[\d,]` class in the amount tokens of the
transaction record patterns. -/
def isAmtTokChar (c : Char) : Bool :=
  c.isDigit || c = ','

/-- Python `str.strip` on a character list. -/
def pyStripL (cs : List Char) : List Char :=
  ((cs.dropWhile isWsChar).reverse.dropWhile isWsChar).reverse

/-- Python `str.strip` on a string. -/
def pyStrip (s : String) : String :=
  String.mk (pyStripL s.data)

/-- Case-insensitive character equality (regex `re.IGNORECASE`). -/
def lcEq (a b : Char) : Bool :=
  a.toLower = b.toLower

/-- Match the literal `pat` case-insensitively at the head of `cs`,
returning the rest on success. -/
def matchCI : List Char → List Char → Option (List Char)
  | [], cs => some cs
  | _ :: _, [] => none
  | p :: ps, c :: cs => if lcEq p c then matchCI ps cs else none

/-- Match the literal `pat` case-sensitively at the head of `cs`. -/
def matchCS : List Char → List Char → Option (List Char)
  | [], cs => some cs
  | _ :: _, [] => none
  | p :: ps, c :: cs => if p = c then matchCS ps cs else none

/-- Match regex `\s+` at the head of `cs`: requires at least one whitespace
character and consumes the maximal whitespace run. -/
def matchWs1 (cs : List Char) : Option (List Char) :=
  match cs with
  | [] => none
  | c :: _ => if isWsChar c then some (cs.dropWhile isWsChar) else none

/-- Numeric value of a digit string (most significant first). -/
def digitsToNat (cs : List Char) : ℕ :=
  cs.foldl (fun acc c => 10 * acc + (c.toNat - 48)) 0

/-- Does `pat` occur (case-insensitively) anywhere in `cs`?  This is the
reachability condition for `re.search` of a pattern that starts with the
literal `pat`. -/
def containsCI (pat : List Char) : List Char → Bool
  | [] => (matchCI pat []).isSome
  | c :: cs => (matchCI pat (c :: cs)).isSome || containsCI pat cs

/-! ### `parse_date` (document_processor.py lines 50–74)

`parse_date` strips the input and tries six `strptime` formats in order,
returning the first success.  Each format is modelled after CPython's
`_strptime` regexes: `%Y` is exactly four digits, `%m` matches
`1[0-2]|0[1-9]|[1-9]`, `%d` matches `3[01]|[12]\d|0[1-9]|[1-9]`, literal
whitespace in a format matches `\s+`, month names are matched
case-insensitively, and the whole string must be consumed.  A match whose
field values do not form a valid calendar date raises `ValueError` in
`datetime`, which `parse_date` treats as a failed format. -/

/-- Match `strptime`'s `%Y` directive: exactly four digits. -/
def year4Tok (cs : List Char) : Option (ℕ × List Char) :=
  match cs with
  | a :: b :: c :: d :: rest =>
    if a.isDigit && b.isDigit && c.isDigit && d.isDigit then
      some (digitsToNat [a, b, c, d], rest)
    else none
  | _ => none

/-- Match `strptime`'s `%m` directive (`1[0-2]|0[1-9]|[1-9]`, first
alternative wins). -/
def monthTok (cs : List Char) : Option (ℕ × List Char) :=
  match cs with
  | a :: b :: rest =>
    if a = '1' && ('0' ≤ b && b ≤ '2') then some (10 + (b.toNat - 48), rest)
    else if a = '0' && ('1' ≤ b && b ≤ '9') then some (b.toNat - 48, rest)
    else if '1' ≤ a && a ≤ '9' then some (a.toNat - 48, b :: rest)
    else none
  | [a] => if '1' ≤ a && a ≤ '9' then some (a.toNat - 48, []) else none
  | [] => none

/-- Match `strptime`'s `%d` directive (`3[01]|[12]\d|0[1-9]|[1-9]`). -/
def dayTok (cs : List Char) : Option (ℕ × List Char) :=
  match cs with
  | a :: b :: rest =>
    if a = '3' && ('0' ≤ b && b ≤ '1') then some (30 + (b.toNat - 48), rest)
    else if ('1' ≤ a && a ≤ '2') && b.isDigit then
      some (10 * (a.toNat - 48) + (b.toNat - 48), rest)
    else if a = '0' && ('1' ≤ b && b ≤ '9') then some (b.toNat - 48, rest)
    else if '1' ≤ a && a ≤ '9' then some (a.toNat - 48, b :: rest)
    else none
  | [a] => if '1' ≤ a && a ≤ '9' then some (a.toNat - 48, []) else none
  | [] => none

/-- Match a single literal character. -/
def matchChar (x : Char) (cs : List Char) : Option (List Char) :=
  match cs with
  | [] => none
  | c :: rest => if c = x then some rest else none

/-- Full month names, for `%B`. -/
def fullMonthNames : List (ℕ × List Char) :=
  [(1, "January".data), (2, "February".data), (3, "March".data),
   (4, "April".data), (5, "May".data), (6, "June".data), (7, "July".data),
   (8, "August".data), (9, "September".data), (10, "October".data),
   (11, "November".data), (12, "December".data)]

/-- Abbreviated month names, for `%b`. -/
def abbrMonthNames : List (ℕ × List Char) :=
  [(1, "Jan".data), (2, "Feb".data), (3, "Mar".data), (4, "Apr".data),
   (5, "May".data), (6, "Jun".data), (7, "Jul".data), (8, "Aug".data),
   (9, "Sep".data), (10, "Oct".data), (11, "Nov".data), (12, "Dec".data)]

/-- Match a month name from `names` case-insensitively. -/
def monthNameTok (names : List (ℕ × List Char)) (cs : List Char) :
    Option (ℕ × List Char) :=
  match names with
  | [] => none
  | (v, n) :: rest =>
    match matchCI n cs with
    | some r => some (v, r)
    | none => monthNameTok rest cs

/-- Format `"%Y-%m-%d"`. -/
def fmtIsoDate (cs : List Char) : Option (ℕ × ℕ × ℕ) := do
  let (y, r1) ← year4Tok cs
  let r2 ← matchChar '-' r1
  let (m, r3) ← monthTok r2
  let r4 ← matchChar '-' r3
  let (d, r5) ← dayTok r4
  if r5 = [] then pure (y, m, d) else none

/-- Format `"%m/%d/%Y"`. -/
def fmtMdySlash (cs : List Char) : Option (ℕ × ℕ × ℕ) := do
  let (m, r1) ← monthTok cs
  let r2 ← matchChar '/' r1
  let (d, r3) ← dayTok r2
  let r4 ← matchChar '/' r3
  let (y, r5) ← year4Tok r4
  if r5 = [] then pure (y, m, d) else none

/-- Format `"%d-%m-%Y"`. -/
def fmtDmyDash (cs : List Char) : Option (ℕ × ℕ × ℕ) := do
  let (d, r1) ← dayTok cs
  let r2 ← matchChar '-' r1
  let (m, r3) ← monthTok r2
  let r4 ← matchChar '-' r3
  let (y, r5) ← year4Tok r4
  if r5 = [] then pure (y, m, d) else none

/-- Formats `"%B %d, %Y"` and `"%b %d, %Y"` (month-name formats; the format's
literal blank matches `\s+`). -/
def fmtMonthName (names : List (ℕ × List Char)) (cs : List Char) :
    Option (ℕ × ℕ × ℕ) := do
  let (m, r1) ← monthNameTok names cs
  let r2 ← matchWs1 r1
  let (d, r3) ← dayTok r2
  let r4 ← matchChar ',' r3
  let r5 ← matchWs1 r4
  let (y, r6) ← year4Tok r5
  if r6 = [] then pure (y, m, d) else none

/-- Format `"%Y/%m/%d"`. -/
def fmtYmdSlash (cs : List Char) : Option (ℕ × ℕ × ℕ) := do
  let (y, r1) ← year4Tok cs
  let r2 ← matchChar '/' r1
  let (m, r3) ← monthTok r2
  let r4 ← matchChar '/' r3
  let (d, r5) ← dayTok r4
  if r5 = [] then pure (y, m, d) else none

/-- Try one `strptime` format and validate the result via `datetime`. -/
def tryFormat (f : List Char → Option (ℕ × ℕ × ℕ)) (cs : List Char) :
    Option PDate := do
  let (y, m, d) ← f cs
  mkValidDate y m d

/-- Model of `parse_date` (document_processor.py lines 50–74): strip, then
try the six formats in order; `none` when no format matches. -/
def parse_date (s : String) : Option PDate :=
  let cs := pyStripL s.data
  tryFormat fmtIsoDate cs <|> tryFormat fmtMdySlash cs <|>
    tryFormat fmtDmyDash cs <|> tryFormat (fmtMonthName fullMonthNames) cs <|>
    tryFormat (fmtMonthName abbrMonthNames) cs <|> tryFormat fmtYmdSlash cs

/-! ### `parse_amount` (document_processor.py lines 76–84) -/

/-- Python `float(s)` on a string over the alphabet `{digits, '.', '-'}`
after sign removal: `digits`, `digits.digits`, `digits.` or `.digits`
(at least one digit); anything else raises `ValueError`. -/
def pyFloatUnsigned (cs : List Char) : Option ℚ :=
  let intPart := cs.takeWhile Char.isDigit
  let rest := cs.dropWhile Char.isDigit
  match rest with
  | [] => if intPart = [] then none else some (digitsToNat intPart : ℚ)
  | c :: frac =>
    if c = '.' && frac.all Char.isDigit && !(intPart = [] && frac = []) then
      some ((digitsToNat intPart : ℚ) + (digitsToNat frac : ℚ) / 10 ^ frac.length)
    else none

/-- Python `float(s)` on a string over `{digits, '.', '-'}`: one optional
leading minus sign, then an unsigned decimal. -/
def pyFloat (cs : List Char) : Option ℚ :=
  match cs with
  | '-' :: rest => (pyFloatUnsigned rest).map (fun q => -q)
  | _ => pyFloatUnsigned cs

/-- Model of `parse_amount` (document_processor.py lines 76–84): drop every
character that is not a digit, `'.'` or `'-'`; `None` when nothing is left;
otherwise `float` of the remainder, with a parse failure caught and turned
into `None`. -/
def parse_amount (s : String) : Option ℚ :=
  let cleaned := s.data.filter isAmountChar
  if cleaned = [] then none else pyFloat cleaned

/-! ### Section extraction (the `re.search` section patterns)

Each of `parse_capital_calls`, `parse_distributions` and `parse_adjustments`
locates its section with a pattern of the shape
`Header\s+TableHeaderLine\s+(.*?)(?=Stop1|Stop2|...|\Z)` compiled with
`re.DOTALL | re.IGNORECASE`.  The model scans for the first position where
the full prefix (header, whitespace, table-header line, whitespace) matches
case-insensitively, and captures the text up to the first case-insensitive
occurrence of a stop token (or the end of the text). -/

/-- Capture `(.*?)(?=stop1|...|\Z)`: the text up to the first
(case-insensitive) occurrence of any stop token. -/
def contentUntil (stops : List (List Char)) : List Char → List Char
  | [] => []
  | c :: rest =>
    if stops.any (fun s => (matchCI s (c :: rest)).isSome) then []
    else c :: contentUntil stops rest

/-- Try to match `header\s+tableHdr\s+` at the head of `cs`; on success
return the text from just after the final whitespace run. -/
def trySectionAt (header tableHdr : List Char) (cs : List Char) :
    Option (List Char) := do
  let r1 ← matchCI header cs
  let r2 ← matchWs1 r1
  let r3 ← matchCI tableHdr r2
  matchWs1 r3

/-- `re.search` for the section pattern: try every start position from the
left; on the first full prefix match, capture the content up to the first
stop token. -/
def sectionScan (header tableHdr : List Char) (stops : List (List Char)) :
    List Char → Option (List Char)
  | [] => none
  | c :: rest =>
    match trySectionAt header tableHdr (c :: rest) with
    | some tail => some (contentUntil stops tail)
    | none => sectionScan header tableHdr stops rest

/-! ### Record scanning (the `re.finditer` record patterns)

Every record pattern starts with a date token `\d{4}-\d{2}-\d{2}` and ends
with a lazy description `(.+?)(?=\d{4}-\d{2}-\d{2}|\Z)` (with `re.DOTALL`),
so a record's description runs up to the next date-shaped token or the end
of the section.  `finditer` semantics: scan left to right; at each
date-shaped position try the full record shape; on failure resume one
character later, on success resume at the end of the match (the position of
the next date token). -/

/-- Does a `\d{4}-\d{2}-\d{2}` token start here?  On success return the
10-character token and the rest. -/
def matchDateTok (cs : List Char) : Option (String × List Char) :=
  match cs with
  | a :: b :: c :: d :: e :: f :: g :: h :: i :: j :: rest =>
    if a.isDigit && b.isDigit && c.isDigit && d.isDigit && e = '-' &&
        f.isDigit && g.isDigit && h = '-' && i.isDigit && j.isDigit then
      some (String.mk [a, b, c, d, e, f, g, h, i, j], rest)
    else none
  | _ => none

/-- Drop characters until a suffix starting with a date token (or return
`[]` when there is none). -/
def dropToDate : List Char → List Char
  | [] => []
  | c :: rest =>
    if (matchDateTok (c :: rest)).isSome then c :: rest else dropToDate rest

/-- Match the lazy description `(.+?)(?=\d{4}-\d{2}-\d{2}|\Z)`: at least one
character, up to the next date token strictly after the first character.
Returns the description and the suffix where scanning resumes. -/
def descSplit (cs : List Char) : Option (String × List Char) :=
  match cs with
  | [] => none
  | c :: rest =>
    let nxt := dropToDate rest
    some (String.mk (c :: rest.take (rest.length - nxt.length)), nxt)

/-- Raw capital-call record candidate: the four captured groups of the
capital-call record pattern, as strings. -/
structure CallCand where
  dateS : String
  typeS : String
  amountS : String
  descS : String
deriving DecidableEq

/-- Raw distribution record candidate: the five captured groups of the
distribution record pattern. -/
structure DistCand where
  dateS : String
  typeS : String
  amountS : String
  recallS : Bool
  descS : String
deriving DecidableEq

/-- Raw adjustment record candidate: the four captured groups of the
adjustment record pattern. -/
structure AdjCand where
  dateS : String
  typeS : String
  amountS : String
  descS : String
deriving DecidableEq

/-- Match the capital-call record pattern
`(\d{4}-\d{2}-\d{2})\s+(Call\s+\d+)\s+\$?([\d,]+)\s+(.+?)(?=\d{4}-\d{2}-\d{2}|\Z)`
(compiled with `re.DOTALL` only — `Call` is case-sensitive) at the head of
`cs`. -/
def matchCapCall (cs : List Char) : Option (CallCand × List Char) := do
  let (dstr, r1) ← matchDateTok cs
  let r2 ← matchWs1 r1
  let r3 ← matchCS "Call".data r2
  let wsA := r3.takeWhile isWsChar
  if wsA = [] then none else do
  let r4 := r3.dropWhile isWsChar
  let num := r4.takeWhile Char.isDigit
  if num = [] then none else do
  let r5 := r4.drop num.length
  let r6 ← matchWs1 r5
  let r7 := if r6.head? = some '$' then r6.drop 1 else r6
  let amt := r7.takeWhile isAmtTokChar
  if amt = [] then none else do
  let r8 := r7.drop amt.length
  let r9 ← matchWs1 r8
  let (desc, rest) ← descSplit r9
  pure (⟨dstr, String.mk ("Call".data ++ wsA ++ num), String.mk amt, desc⟩, rest)

/-- Match the continuation `\s+\$?([\d,]+)\s+(Yes|No)\s+(.+?)(?=date|\Z)` of
the distribution record pattern (case-insensitive). -/
def distCont (cs : List Char) : Option (String × Bool × String × List Char) := do
  let r1 ← matchWs1 cs
  let r2 := if r1.head? = some '$' then r1.drop 1 else r1
  let amt := r2.takeWhile isAmtTokChar
  if amt = [] then none else do
  let r3 := r2.drop amt.length
  let r4 ← matchWs1 r3
  let (yn, r5) ←
    match matchCI "Yes".data r4 with
    | some r => some (true, r)
    | none =>
      match matchCI "No".data r4 with
      | some r => some (false, r)
      | none => none
  let r6 ← matchWs1 r5
  let (desc, rest) ← descSplit r6
  pure (String.mk amt, yn, desc, rest)

/-- Lazy expansion of the `([\w\s]+?)` type group of the distribution
pattern: starting from a nonempty `acc`, first try the continuation, then
extend the group one word/whitespace character at a time. -/
def distTypeScan : ℕ → List Char → List Char →
    Option (String × String × Bool × String × List Char)
  | 0, _, _ => none
  | fuel + 1, acc, cs =>
    match distCont cs with
    | some (amt, yn, desc, rest) => some (String.mk acc, amt, yn, desc, rest)
    | none =>
      match cs with
      | c :: cs' =>
        if isWordChar c || isWsChar c then distTypeScan fuel (acc ++ [c]) cs'
        else none
      | [] => none

/-- Match the distribution record pattern
`(\d{4}-\d{2}-\d{2})\s+([\w\s]+?)\s+\$?([\d,]+)\s+(Yes|No)\s+(.+?)(?=date|\Z)`
(compiled with `re.DOTALL | re.IGNORECASE`) at the head of `cs`. -/
def matchDistRecord (cs : List Char) : Option (DistCand × List Char) := do
  let (dstr, r1) ← matchDateTok cs
  let r2 ← matchWs1 r1
  match r2 with
  | [] => none
  | c :: rest =>
    if isWordChar c then do
      let (ty, amt, yn, desc, rest') ← distTypeScan (rest.length + 1) [c] rest
      pure (⟨dstr, ty, amt, yn, desc⟩, rest')
    else none

/-- Match the continuation `\s+(-?\$?[\d,]+)\s+(.+?)(?=date|\Z)` of the
adjustment record pattern; group 3 keeps the sign and dollar sign. -/
def adjCont (cs : List Char) : Option (String × String × List Char) := do
  let r1 ← matchWs1 cs
  let (sgn, r2) := if r1.head? = some '-' then (['-'], r1.drop 1) else ([], r1)
  let (dl, r3) := if r2.head? = some '$' then (['$'], r2.drop 1) else ([], r2)
  let amt := r3.takeWhile isAmtTokChar
  if amt = [] then none else do
  let r4 := r3.drop amt.length
  let r5 ← matchWs1 r4
  let (desc, rest) ← descSplit r5
  pure (String.mk (sgn ++ dl ++ amt), desc, rest)

/-- Lazy expansion of the `([\w\s]+?)` type group of the adjustment
pattern. -/
def adjTypeScan : ℕ → List Char → List Char →
    Option (String × String × String × List Char)
  | 0, _, _ => none
  | fuel + 1, acc, cs =>
    match adjCont cs with
    | some (amt, desc, rest) => some (String.mk acc, amt, desc, rest)
    | none =>
      match cs with
      | c :: cs' =>
        if isWordChar c || isWsChar c then adjTypeScan fuel (acc ++ [c]) cs'
        else none
      | [] => none

/-- Match the adjustment record pattern
`(\d{4}-\d{2}-\d{2})\s+([\w\s]+?)\s+(-?\$?[\d,]+)\s+(.+?)(?=date|\Z)`
(compiled with `re.DOTALL | re.IGNORECASE`) at the head of `cs`. -/
def matchAdjRecord (cs : List Char) : Option (AdjCand × List Char) := do
  let (dstr, r1) ← matchDateTok cs
  let r2 ← matchWs1 r1
  match r2 with
  | [] => none
  | c :: rest =>
    if isWordChar c then do
      let (ty, amt, desc, rest') ← adjTypeScan (rest.length + 1) [c] rest
      pure (⟨dstr, ty, amt, desc⟩, rest')
    else none

/-- `re.finditer` scan for capital-call candidates (fuel-bounded; the fuel
is instantiated with more than the text length, which each step consumes). -/
def scanCapCalls : ℕ → List Char → List CallCand
  | 0, _ => []
  | fuel + 1, cs =>
    match dropToDate cs with
    | [] => []
    | c :: tail =>
      match matchCapCall (c :: tail) with
      | some (cand, rest) => cand :: scanCapCalls fuel rest
      | none => scanCapCalls fuel tail

/-- `re.finditer` scan for distribution candidates. -/
def scanDists : ℕ → List Char → List DistCand
  | 0, _ => []
  | fuel + 1, cs =>
    match dropToDate cs with
    | [] => []
    | c :: tail =>
      match matchDistRecord (c :: tail) with
      | some (cand, rest) => cand :: scanDists fuel rest
      | none => scanDists fuel tail

/-- `re.finditer` scan for adjustment candidates. -/
def scanAdjs : ℕ → List Char → List AdjCand
  | 0, _ => []
  | fuel + 1, cs =>
    match dropToDate cs with
    | [] => []
    | c :: tail =>
      match matchAdjRecord (c :: tail) with
      | some (cand, rest) => cand :: scanAdjs fuel rest
      | none => scanAdjs fuel tail

/-! ### Accepted transaction records (document_processor.py lines 133–281)

The Python loops over `finditer` matches parse each candidate's date and
amount and keep the record only when both are acceptable:
capital calls and distributions require a truthy (non-`None`, non-zero)
amount, adjustments only require a non-`None` amount. -/

/-- A parsed capital-call record (the dict built at lines 170–175). -/
structure CapitalCallRec where
  call_date : PDate
  call_type : String
  amount : ℚ
  description : String
deriving DecidableEq

/-- A parsed distribution record (the dict built at lines 220–226). -/
structure DistributionRec where
  distribution_date : PDate
  distribution_type : String
  amount : ℚ
  is_recallable : Bool
  description : String
deriving DecidableEq

/-- A parsed adjustment record (the dict built at lines 271–276). -/
structure AdjustmentRec where
  adjustment_date : PDate
  adjustment_type : String
  amount : ℚ
  description : String
deriving DecidableEq

/-- Accept or drop one capital-call candidate (lines 161–178):
`if call_date and amount` — the record is kept only when the date parses
and the amount parses to a non-zero value. -/
def acceptCapCall (c : CallCand) : Option CapitalCallRec :=
  match parse_date c.dateS, parse_amount c.amountS with
  | some d, some a =>
    if a ≠ 0 then some ⟨d, pyStrip c.typeS, a, pyStrip c.descS⟩ else none
  | _, _ => none

/-- Accept or drop one distribution candidate (lines 210–230): same
truthiness test as capital calls; `is_recallable` is the `Yes`/`No` flag. -/
def acceptDist (c : DistCand) : Option DistributionRec :=
  match parse_date c.dateS, parse_amount c.amountS with
  | some d, some a =>
    if a ≠ 0 then some ⟨d, pyStrip c.typeS, a, c.recallS, pyStrip c.descS⟩
    else none
  | _, _ => none

/-- Accept or drop one adjustment candidate (lines 262–279):
`if adj_date and amount is not None` — zero amounts are accepted. -/
def acceptAdj (c : AdjCand) : Option AdjustmentRec :=
  match parse_date c.dateS, parse_amount c.amountS with
  | some d, some a => some ⟨d, pyStrip c.typeS, a, pyStrip c.descS⟩
  | _, _ => none

/-- Model of `parse_capital_calls` (lines 133–180). -/
def parse_capital_calls (text : String) : List CapitalCallRec :=
  match sectionScan "Capital Calls".data
      "Date Call Number Amount Description".data
      ["Distributions".data, "Adjustments".data, "Performance Summary".data]
      text.data with
  | none => []
  | some raw =>
    let content := pyStripL raw
    (scanCapCalls (content.length + 1) content).filterMap acceptCapCall

/-- Model of `parse_distributions` (lines 182–232). -/
def parse_distributions (text : String) : List DistributionRec :=
  match sectionScan "Distributions".data
      "Date Type Amount Recallable Description".data
      ["Adjustments".data, "Performance Summary".data] text.data with
  | none => []
  | some raw =>
    let content := pyStripL raw
    (scanDists (content.length + 1) content).filterMap acceptDist

/-- Model of `parse_adjustments` (lines 234–281). -/
def parse_adjustments (text : String) : List AdjustmentRec :=
  match sectionScan "Adjustments".data "Date Type Amount Description".data
      ["Performance Summary".data, "Fund Strategy".data] text.data with
  | none => []
  | some raw =>
    let content := pyStripL raw
    (scanAdjs (content.length + 1) content).filterMap acceptAdj

/-! ### `parse_fund_info` (document_processor.py lines 12–48) -/

/-- Fund identity fields with their fallback defaults. -/
structure FundInfo where
  name : String
  gp_name : String
  vintage_year : Option ℕ
deriving DecidableEq

/-- Model of the regex continuation `\s*(.+)` followed by `.strip()` of the
captured group: skip whitespace, capture the rest of the line.  When only
whitespace remains, the greedy `\s*` backtracks so that `.+` can still match
a non-newline whitespace character; the stripped capture is then empty. -/
def lineCapture (rest : List Char) : Option String :=
  let w := rest.takeWhile isWsChar
  let q := rest.drop w.length
  match q with
  | _ :: _ => some (pyStrip (String.mk (q.takeWhile (fun x => x ≠ '\n'))))
  | [] => if w.any (fun x => x ≠ '\n') then some "" else none

/-- Model of the regex continuation `\s*(\d{4})`: skip whitespace, then
exactly four digits. -/
def yearCapture (rest : List Char) : Option ℕ :=
  let q := rest.dropWhile isWsChar
  let ds := q.takeWhile Char.isDigit
  if 4 ≤ ds.length then some (digitsToNat (ds.take 4)) else none

/-- `re.search` for `label` followed by a continuation: try each start
position left to right; when the label matches but the continuation does
not, keep searching from the next position. -/
def searchLabel {α : Type} (label : List Char) (cont : List Char → Option α) :
    List Char → Option α
  | [] => none
  | c :: rest =>
    match matchCI label (c :: rest) with
    | some r =>
      match cont r with
      | some v => some v
      | none => searchLabel label cont rest
    | none => searchLabel label cont rest

/-- Model of `parse_fund_info` (lines 12–48): three independent
case-insensitive lookups, each leaving its default when absent. -/
def parse_fund_info (text : String) : FundInfo :=
  { name := (searchLabel "Fund Name:".data lineCapture text.data).getD "Unknown Fund"
    gp_name := (searchLabel "GP:".data lineCapture text.data).getD "Unknown GP"
    vintage_year := searchLabel "Vintage Year:".data yearCapture text.data }

/-! ### `chunk_text` (document_processor.py lines 284–301) -/

/-- Python `str.split()`: split on whitespace runs, discarding empties. -/
def pySplitWs (s : String) : List String :=
  (s.split (fun c => isWsChar c)).filter (fun w => w ≠ "")

/-- Group a word list into runs of 500 (the default `chunk_size`). -/
def groupWords : List String → List (List String)
  | [] => []
  | w :: ws => (w :: ws).take 500 :: groupWords (ws.drop 499)
termination_by ws => ws.length
decreasing_by
  simp only [List.length_drop, List.length_cons]
  omega

/-- Model of `chunk_text` with the default `chunk_size = 500`: split the
text into words and join each group of 500 words with single blanks. -/
def chunk_text (text : String) : List String :=
  (groupWords (pySplitWs text)).map (fun g => String.intercalate " " g)

/-! ### Database rows and state (spec §3; tables used by document_processor.py)

`created_at` timestamps are wall-clock values irrelevant to every claim and
are omitted from the row models. -/

/-- A row of the `funds` table. -/
structure FundRow where
  id : ℕ
  name : String
  gp_name : String
  vintage_year : Option ℕ
  fund_type : String
deriving DecidableEq

/-- A row of the `documents` table (only the column the pipeline touches). -/
structure DocumentRow where
  id : ℕ
  fund_id : ℕ
deriving DecidableEq

/-- A row of the `document_embeddings` table. -/
structure EmbeddingRow where
  document_id : ℕ
  content : String
  embedding : List ℚ
deriving DecidableEq

/-- A row of the `capital_calls` table. -/
structure CapitalCallRow where
  fund_id : ℕ
  call_date : PDate
  call_type : String
  amount : ℚ
  description : String
deriving DecidableEq

/-- A row of the `distributions` table. -/
structure DistributionRow where
  fund_id : ℕ
  distribution_date : PDate
  distribution_type : String
  amount : ℚ
  is_recallable : Bool
  description : String
deriving DecidableEq

/-- A row of the `adjustments` table. -/
structure AdjustmentRow where
  fund_id : ℕ
  adjustment_date : PDate
  adjustment_type : String
  amount : ℚ
  description : String
deriving DecidableEq

/-- The committed database state.  `nextFundId` models the id sequence used
by `INSERT INTO funds ... RETURNING id`. -/
structure DbState where
  funds : List FundRow
  documents : List DocumentRow
  document_embeddings : List EmbeddingRow
  capital_calls : List CapitalCallRow
  distributions : List DistributionRow
  adjustments : List AdjustmentRow
  nextFundId : ℕ
deriving DecidableEq

/-! ### `DocumentProcessor.process_document` (document_processor.py 316–479)

The PDF-text collaborator is external (spec §6), so the environment carries
the already-extracted text.  Exceptions can arise from the empty-text check,
from the embedding collaborator, from any `db.execute` write (modelled by
the `writeFault` oracle, keyed by table name and per-table write index) and
from `commit`.  The whole body runs in `Except`; the session's writes are
collected in a candidate state which becomes the result only when the body
reaches `commit` — on any error the original state is returned, which is
exactly the `db.rollback()` semantics. -/

/-- The environment of one `process_document` call. -/
structure Env where
  pdf_text : String
  embed : String → Except String (List ℚ)
  writeFault : String → ℕ → Option String
  commitFault : Option String

/-- The structured success summary built at lines 462–471. -/
structure ProcessSummary where
  document_id : ℕ
  fund_id : ℕ
  capital_calls : ℕ
  distributions : ℕ
  adjustments : ℕ
deriving DecidableEq

/-- The structured result of `process_document`: either a success summary or
the `{status: "failed", document_id, error}` dict from line 479. -/
inductive ProcessResult where
  | success (s : ProcessSummary)
  | failed (document_id : ℕ) (error : String)
deriving DecidableEq

/-- One `db.execute(INSERT ...)`: raise when the write-fault oracle says so. -/
def tryWrite (env : Env) (table : String) (idx : ℕ) : Except String Unit :=
  match env.writeFault table idx with
  | some e => Except.error e
  | none => Except.ok ()

/-- The embedding loop (lines 333–346): embed each chunk and insert a
`document_embeddings` row. -/
def insertEmbeddings (env : Env) (docId : ℕ) :
    List String → ℕ → DbState → Except String DbState
  | [], _, st => Except.ok st
  | c :: rest, idx, st => do
    let v ← env.embed c
    tryWrite env "document_embeddings" idx
    insertEmbeddings env docId rest (idx + 1)
      { st with document_embeddings := st.document_embeddings ++ [⟨docId, c, v⟩] }

/-- The fund upsert (lines 352–395): update the fund row when `fund_id`
exists, otherwise insert a new fund and rebind the document to its id.
Returns the (possibly new) fund id. -/
def upsertFund (env : Env) (docId fundId : ℕ) (info : FundInfo) (st : DbState) :
    Except String (DbState × ℕ) := do
  if st.funds.any (fun f => f.id == fundId) then do
    tryWrite env "funds" 0
    Except.ok ({ st with funds := st.funds.map (fun f =>
      if f.id = fundId then
        { f with name := info.name, gp_name := info.gp_name,
                 vintage_year := info.vintage_year }
      else f) }, fundId)
  else do
    tryWrite env "funds" 0
    let newId := st.nextFundId
    let st1 : DbState := { st with
      funds := st.funds ++ [⟨newId, info.name, info.gp_name, info.vintage_year,
        "Private Equity"⟩],
      nextFundId := st.nextFundId + 1 }
    tryWrite env "documents" 0
    Except.ok ({ st1 with documents := st1.documents.map (fun d =>
      if d.id = docId then { d with fund_id := newId } else d) }, newId)

/-- The capital-call insert loop (lines 401–415). -/
def insertCapCalls (env : Env) (fundId : ℕ) :
    List CapitalCallRec → ℕ → DbState → Except String DbState
  | [], _, st => Except.ok st
  | r :: rest, idx, st => do
    tryWrite env "capital_calls" idx
    insertCapCalls env fundId rest (idx + 1)
      { st with capital_calls := st.capital_calls ++
          [⟨fundId, r.call_date, r.call_type, r.amount, r.description⟩] }

/-- The distribution insert loop (lines 421–436). -/
def insertDists (env : Env) (fundId : ℕ) :
    List DistributionRec → ℕ → DbState → Except String DbState
  | [], _, st => Except.ok st
  | r :: rest, idx, st => do
    tryWrite env "distributions" idx
    insertDists env fundId rest (idx + 1)
      { st with distributions := st.distributions ++
          [⟨fundId, r.distribution_date, r.distribution_type, r.amount,
            r.is_recallable, r.description⟩] }

/-- The adjustment insert loop (lines 442–456). -/
def insertAdjs (env : Env) (fundId : ℕ) :
    List AdjustmentRec → ℕ → DbState → Except String DbState
  | [], _, st => Except.ok st
  | r :: rest, idx, st => do
    tryWrite env "adjustments" idx
    insertAdjs env fundId rest (idx + 1)
      { st with adjustments := st.adjustments ++
          [⟨fundId, r.adjustment_date, r.adjustment_type, r.amount,
            r.description⟩] }

/-- The body of the `try` block of `process_document` (lines 318–473):
extract-check, embed/insert, fund upsert, three parse/insert loops, commit.
Any raised error propagates to the handler. -/
def runBody (env : Env) (st : DbState) (docId fundId : ℕ) :
    Except String (DbState × ProcessSummary) := do
  if env.pdf_text.data.all isWsChar then
    Except.error "PDF contains no extractable text"
  else do
    let chunks := chunk_text env.pdf_text
    let st1 ← insertEmbeddings env docId chunks 0 st
    let info := parse_fund_info env.pdf_text
    let (st2, fid) ← upsertFund env docId fundId info st1
    let calls := parse_capital_calls env.pdf_text
    let st3 ← insertCapCalls env fid calls 0 st2
    let dists := parse_distributions env.pdf_text
    let st4 ← insertDists env fid dists 0 st3
    let adjs := parse_adjustments env.pdf_text
    let st5 ← insertAdjs env fid adjs 0 st4
    match env.commitFault with
    | some e => Except.error e
    | none =>
      Except.ok (st5, ⟨docId, fid, calls.length, dists.length, adjs.length⟩)

/-- Model of `process_document` (lines 316–479): run the body; on success
the candidate state is committed, on any exception the session rolls back
to the original state and the structured failure dict is returned. -/
def process_document (env : Env) (st : DbState) (docId fundId : ℕ) :
    ProcessResult × DbState :=
  match runBody env st docId fundId with
  | Except.ok (st', s) => (ProcessResult.success s, st')
  | Except.error e => (ProcessResult.failed docId e, st)

/-! ### MetricsCalculator — pure model (metrics_calculator.py)

The SQL aggregate queries are modelled as sums over the row lists of a
`DbState`; `SUM` over no rows yields SQL `NULL`, which the Python code turns
into `Decimal(0)` via `... or Decimal(0)`, so the empty sum is `0` in both.
`round(x, 4)` and `round(x, 2)` are modelled by `round4` and `round2`. -/

/-- Python `round(x, 4)` on the rational model. -/
def round4 (x : ℚ) : ℚ :=
  ((round (x * 10000) : ℤ) : ℚ) / 10000

/-- Python `round(x, 2)` on the rational model. -/
def round2 (x : ℚ) : ℚ :=
  ((round (x * 100) : ℤ) : ℚ) / 100

/-- `SELECT SUM(amount) FROM capital_calls WHERE fund_id = :f` (with the
`or Decimal(0)` default). -/
def sumCallAmounts (db : DbState) (fund_id : ℕ) : ℚ :=
  ((db.capital_calls.filter (fun r => r.fund_id == fund_id)).map
    (fun r => r.amount)).sum

/-- `SELECT SUM(amount) FROM adjustments WHERE fund_id = :f`. -/
def sumAdjAmounts (db : DbState) (fund_id : ℕ) : ℚ :=
  ((db.adjustments.filter (fun r => r.fund_id == fund_id)).map
    (fun r => r.amount)).sum

/-- `SELECT SUM(amount) FROM distributions WHERE fund_id = :f`. -/
def sumDistAmounts (db : DbState) (fund_id : ℕ) : ℚ :=
  ((db.distributions.filter (fun r => r.fund_id == fund_id)).map
    (fun r => r.amount)).sum

/-- `SELECT SUM(amount) FROM adjustments WHERE fund_id = :f AND
adjustment_type = 'NAV_ADJUSTMENT'`. -/
def sumNavAmounts (db : DbState) (fund_id : ℕ) : ℚ :=
  ((db.adjustments.filter (fun r =>
    r.fund_id == fund_id && r.adjustment_type == "NAV_ADJUSTMENT")).map
    (fun r => r.amount)).sum

/-- Model of `calculate_pic` (lines 39–60): total calls minus total
adjustments, floored at zero by `pic if pic > 0 else Decimal(0)`. -/
def calculate_pic (db : DbState) (fund_id : ℕ) : ℚ :=
  let total_calls := sumCallAmounts db fund_id
  let total_adjustments := sumAdjAmounts db fund_id
  let pic := total_calls - total_adjustments
  if pic > 0 then pic else 0

/-- Model of `calculate_total_distributions` (lines 62–75). -/
def calculate_total_distributions (db : DbState) (fund_id : ℕ) : ℚ :=
  sumDistAmounts db fund_id

/-- Model of `calculate_dpi` (lines 77–93): distributions over PIC, rounded
to 4 decimals, `0.0` when PIC is zero (`if not pic or pic == 0`). -/
def calculate_dpi (db : DbState) (fund_id : ℕ) : ℚ :=
  let pic := calculate_pic db fund_id
  let total_distributions := calculate_total_distributions db fund_id
  if pic = 0 then 0 else round4 (total_distributions / pic)

/-- Model of `calculate_nav` (lines 123–141): sum of `NAV_ADJUSTMENT`-tagged
adjustment amounts. -/
def calculate_nav (db : DbState) (fund_id : ℕ) : ℚ :=
  sumNavAmounts db fund_id

/-- Model of `calculate_rvpi` (lines 144–166): NAV over PIC, rounded to 4
decimals, `0.0` when PIC is zero. -/
def calculate_rvpi (db : DbState) (fund_id : ℕ) : ℚ :=
  let nav := calculate_nav db fund_id
  let pic := calculate_pic db fund_id
  if pic = 0 then 0 else round4 (nav / pic)

/-- Model of `calculate_tvpi` (lines 169–193): (distributions + NAV) over
PIC, rounded to 4 decimals, `0.0` when PIC is zero. -/
def calculate_tvpi (db : DbState) (fund_id : ℕ) : ℚ :=
  let total_distributions := calculate_total_distributions db fund_id
  let nav := calculate_nav db fund_id
  let pic := calculate_pic db fund_id
  if pic = 0 then 0 else round4 ((total_distributions + nav) / pic)

/-! ### Cash-flow assembly (`_get_cash_flows`, lines 196–240) -/

/-- The source kind of a cash-flow entry (the `'type'` field). -/
inductive CashKind where
  | capital_call
  | distribution
deriving DecidableEq

/-- A transient cash-flow entry: `{'date': ..., 'amount': ..., 'type': ...}`. -/
structure CashFlow where
  date : PDate
  amount : ℚ
  kind : CashKind
deriving DecidableEq

/-- Date order on `(date, amount)` query rows, for the SQL `ORDER BY`. -/
def rowLe (a b : PDate × ℚ) : Prop := dateLe a.1 b.1

instance : DecidableRel rowLe := fun a b => by
  unfold rowLe
  infer_instance

/-- Date order on cash-flow entries, for the final Python `list.sort`
(`key=lambda x: x['date']`); both sorts are modelled by the stable
`List.insertionSort`, matching Python's stable sort. -/
def cfLe (a b : CashFlow) : Prop := dateLe a.date b.date

instance : DecidableRel cfLe := fun a b => by
  unfold cfLe
  infer_instance

instance : IsTotal CashFlow cfLe :=
  ⟨fun a b => by unfold cfLe dateLe; omega⟩

instance : IsTrans CashFlow cfLe :=
  ⟨fun a b c h1 h2 => by unfold cfLe dateLe at *; omega⟩

/-- A capital-call query row becomes a negated cash-flow entry (line 213–218). -/
def mkCallEntry (r : PDate × ℚ) : CashFlow :=
  ⟨r.1, -r.2, CashKind.capital_call⟩

/-- A distribution query row becomes a positive cash-flow entry (line 230–235). -/
def mkDistEntry (r : PDate × ℚ) : CashFlow :=
  ⟨r.1, r.2, CashKind.distribution⟩

/-- The list assembly of `_get_cash_flows`: negated capital calls (in query
date order) are appended first, distributions second, then the whole list is
sorted by date with Python's stable sort. -/
def assemble_cash_flows (calls dists : List (PDate × ℚ)) : List CashFlow :=
  List.insertionSort cfLe
    ((List.insertionSort rowLe calls).map mkCallEntry ++
      (List.insertionSort rowLe dists).map mkDistEntry)

/-- The `(call_date, amount)` rows of the capital-call query. -/
def callRows (db : DbState) (fund_id : ℕ) : List (PDate × ℚ) :=
  (db.capital_calls.filter (fun r => r.fund_id == fund_id)).map
    (fun r => (r.call_date, r.amount))

/-- The `(distribution_date, amount)` rows of the distribution query. -/
def distRows (db : DbState) (fund_id : ℕ) : List (PDate × ℚ) :=
  (db.distributions.filter (fun r => r.fund_id == fund_id)).map
    (fun r => (r.distribution_date, r.amount))

/-- Model of `_get_cash_flows` (lines 196–240). -/
def get_cash_flows (db : DbState) (fund_id : ℕ) : List CashFlow :=
  assemble_cash_flows (callRows db fund_id) (distRows db fund_id)

/-! ### MetricsCalculator — session-failure model (suffix `X`)

The same methods, over an oracle of aggregate queries each of which may
raise.  This makes explicit which Python methods wrap their body in
`try`/`except` (`calculate_irr`, `calculate_nav`, `calculate_rvpi`,
`calculate_tvpi` — errors become `None`) and which do not
(`calculate_pic`, `calculate_total_distributions`, `calculate_dpi`,
`calculate_all_metrics` — errors propagate to the caller).
The `numpy_financial.irr` root finder is an external library routine and is
abstracted as a `solver` argument returning `none` for its `None`/NaN/Inf
outcomes. -/

/-- The aggregate queries `MetricsCalculator` issues, each fallible. -/
structure DbOracle where
  sumCalls : ℕ → Except String ℚ
  sumAdjustments : ℕ → Except String ℚ
  sumDistributions : ℕ → Except String ℚ
  sumNavAdjustments : ℕ → Except String ℚ
  callFlows : ℕ → Except String (List (PDate × ℚ))
  distFlows : ℕ → Except String (List (PDate × ℚ))

/-- `calculate_pic` over the oracle: no `try`/`except`, query errors
propagate. -/
def calculate_picX (o : DbOracle) (fund_id : ℕ) : Except String ℚ := do
  let total_calls ← o.sumCalls fund_id
  let total_adjustments ← o.sumAdjustments fund_id
  let pic := total_calls - total_adjustments
  pure (if pic > 0 then pic else 0)

/-- `calculate_total_distributions` over the oracle: no `try`/`except`. -/
def calculate_total_distributionsX (o : DbOracle) (fund_id : ℕ) :
    Except String ℚ :=
  o.sumDistributions fund_id

/-- `calculate_dpi` over the oracle: no `try`/`except`, errors from the two
sub-computations propagate. -/
def calculate_dpiX (o : DbOracle) (fund_id : ℕ) : Except String ℚ := do
  let pic ← calculate_picX o fund_id
  let total_distributions ← calculate_total_distributionsX o fund_id
  pure (if pic = 0 then 0 else round4 (total_distributions / pic))

/-- `_get_cash_flows` over the oracle (called inside `calculate_irr`'s
`try` block). -/
def get_cash_flowsX (o : DbOracle) (fund_id : ℕ) :
    Except String (List CashFlow) := do
  let calls ← o.callFlows fund_id
  let dists ← o.distFlows fund_id
  pure (assemble_cash_flows calls dists)

/-- `calculate_irr` (lines 95–121): the whole body is inside
`try`/`except`, so any query error yields `None`; fewer than two cash flows
yields `None`; a `None`/NaN/Inf solver outcome yields `None`; otherwise the
rate is converted to a percentage and rounded to 2 decimals. -/
def calculate_irrX (solver : List ℚ → Option ℚ) (o : DbOracle)
    (fund_id : ℕ) : Option ℚ :=
  match get_cash_flowsX o fund_id with
  | Except.error _ => none
  | Except.ok cash_flows =>
    if cash_flows.length < 2 then none
    else
      match solver (cash_flows.map (fun cf => cf.amount)) with
      | none => none
      | some irr => some (round2 (irr * 100))

/-- `calculate_nav` (lines 123–141): wrapped in `try`/`except`, a query
error becomes `None`. -/
def calculate_navX (o : DbOracle) (fund_id : ℕ) : Option ℚ :=
  match o.sumNavAdjustments fund_id with
  | Except.ok v => some v
  | Except.error _ => none

/-- `calculate_rvpi` (lines 144–166): wrapped in `try`/`except`.  `nav` is
computed first (its own failures already collapsed to `None`), then `pic`
(a failure there is caught here), then the zero guard; `float(None)` on a
`None` nav raises and is caught, giving `None`. -/
def calculate_rvpiX (o : DbOracle) (fund_id : ℕ) : Option ℚ :=
  let nav := calculate_navX o fund_id
  match calculate_picX o fund_id with
  | Except.error _ => none
  | Except.ok pic =>
    if pic = 0 then some 0
    else
      match nav with
      | none => none
      | some n => some (round4 (n / pic))

/-- `calculate_tvpi` (lines 169–193): wrapped in `try`/`except`, same
structure with distributions first. -/
def calculate_tvpiX (o : DbOracle) (fund_id : ℕ) : Option ℚ :=
  match calculate_total_distributionsX o fund_id with
  | Except.error _ => none
  | Except.ok total_distributions =>
    let nav := calculate_navX o fund_id
    match calculate_picX o fund_id with
    | Except.error _ => none
    | Except.ok pic =>
      if pic = 0 then some 0
      else
        match nav with
        | none => none
        | some n => some (round4 ((total_distributions + n) / pic))

/-- The aggregate returned by `calculate_all_metrics` (lines 29–37). -/
structure FundMetrics where
  pic : ℚ
  total_distributions : ℚ
  dpi : ℚ
  irr : ℚ
  nav : ℚ
  rvpi : ℚ
  tvpi : ℚ
deriving DecidableEq

/-- Python's `float(x) if x else 0` on an optional value: `None` and `0`
both map to `0`. -/
def coerce0 : Option ℚ → ℚ
  | none => 0
  | some v => if v = 0 then 0 else v

/-- `calculate_all_metrics` (lines 19–37) over the oracle: a plain
sequential computation with no `try`/`except` of its own, so an error
raised by `calculate_pic`, `calculate_total_distributions` or
`calculate_dpi` propagates and aborts the whole aggregate, while the four
self-guarded metrics contribute `None` (coerced to 0) on failure. -/
def calculate_all_metricsX (solver : List ℚ → Option ℚ) (o : DbOracle)
    (fund_id : ℕ) : Except String FundMetrics := do
  let pic ← calculate_picX o fund_id
  let total_distributions ← calculate_total_distributionsX o fund_id
  let dpi ← calculate_dpiX o fund_id
  let irr := calculate_irrX solver o fund_id
  let nav := calculate_navX o fund_id
  let rvpi := calculate_rvpiX o fund_id
  let tvpi := calculate_tvpiX o fund_id
  pure
    { pic := coerce0 (some pic)
      total_distributions := coerce0 (some total_distributions)
      dpi := coerce0 (some dpi)
      irr := coerce0 irr
      nav := coerce0 nav
      rvpi := coerce0 rvpi
      tvpi := coerce0 tvpi }

/-! ### Claims -/

/-- C2: for every fund, `calculate_pic` returns
`max 0 (Σ capital-call amounts − Σ adjustment amounts)`; in particular the
result is never negative, even when adjustments exceed calls. -/
theorem c2_pic_max_floor (db : DbState) (fund_id : ℕ) :
    calculate_pic db fund_id =
      max 0 (sumCallAmounts db fund_id - sumAdjAmounts db fund_id) ∧
    0 ≤ calculate_pic db fund_id := by
  unfold calculate_pic
  dsimp only
  constructor
  · rcases le_or_lt (sumCallAmounts db fund_id - sumAdjAmounts db fund_id) 0
      with h | h
    · rw [if_neg (not_lt.mpr h), max_eq_left h]
    · rw [if_pos h, max_eq_right h.le]
  · split
    · linarith
    · exact le_refl 0

/-- C3: when PIC is positive, DPI, RVPI and TVPI each equal their defining
ratio rounded to 4 decimal places; when PIC is zero each equals exactly 0. -/
theorem c3_ratio_guards (db : DbState) (fund_id : ℕ) :
    (0 < calculate_pic db fund_id →
      calculate_dpi db fund_id =
        round4 (calculate_total_distributions db fund_id / calculate_pic db fund_id) ∧
      calculate_rvpi db fund_id =
        round4 (calculate_nav db fund_id / calculate_pic db fund_id) ∧
      calculate_tvpi db fund_id =
        round4 ((calculate_total_distributions db fund_id + calculate_nav db fund_id) /
          calculate_pic db fund_id)) ∧
    (calculate_pic db fund_id = 0 →
      calculate_dpi db fund_id = 0 ∧ calculate_rvpi db fund_id = 0 ∧
      calculate_tvpi db fund_id = 0) := by
  constructor
  · intro hpos
    have hne : calculate_pic db fund_id ≠ 0 := ne_of_gt hpos
    refine ⟨?_, ?_, ?_⟩
    · unfold calculate_dpi
      rw [if_neg hne]
    · unfold calculate_rvpi
      rw [if_neg hne]
    · unfold calculate_tvpi
      rw [if_neg hne]
  · intro hz
    refine ⟨?_, ?_, ?_⟩
    · unfold calculate_dpi
      rw [if_pos hz]
    · unfold calculate_rvpi
      rw [if_pos hz]
    · unfold calculate_tvpi
      rw [if_pos hz]

/-- A concrete database with positive PIC, for the C3 witness. -/
def dbC3 : DbState :=
  { funds := [], documents := [], document_embeddings := []
    capital_calls := [⟨1, ⟨2020, 1, 15⟩, "Call 1", 100, "first"⟩]
    distributions := [⟨1, ⟨2021, 3, 1⟩, "Dividend", 40, false, "d"⟩]
    adjustments := [⟨1, ⟨2021, 12, 31⟩, "NAV_ADJUSTMENT", 20, "nav"⟩]
    nextFundId := 2 }

/-- An empty database (PIC is zero), for the C3 witness. -/
def dbC3zero : DbState :=
  { funds := [], documents := [], document_embeddings := []
    capital_calls := [], distributions := [], adjustments := []
    nextFundId := 1 }

/-- C3 witness: both branches of `c3_ratio_guards` at concrete databases. -/
theorem c3_ratio_guards_witness :
    (0 < calculate_pic dbC3 1 ∧
      calculate_dpi dbC3 1 =
        round4 (calculate_total_distributions dbC3 1 / calculate_pic dbC3 1)) ∧
    (calculate_pic dbC3zero 1 = 0 ∧ calculate_dpi dbC3zero 1 = 0) := by
  have h1 : 0 < calculate_pic dbC3 1 := by with_unfolding_all decide
  have h0 : calculate_pic dbC3zero 1 = 0 := by with_unfolding_all decide
  exact ⟨⟨h1, ((c3_ratio_guards dbC3 1).1 h1).1⟩,
    ⟨h0, ((c3_ratio_guards dbC3zero 1).2 h0).1⟩⟩

/-- C7: `parse_amount` strips every character that is not a digit, `.` or
`-`, parses the remainder as a decimal (preserving sign), and returns null
on an empty remainder; concrete values as the spec states them. -/
theorem c7_parse_amount_spec :
    parse_amount "$1,234,567.89" = some (1234567.89 : ℚ) ∧
    parse_amount "-$500" = some (-500 : ℚ) ∧
    parse_amount "abc" = none ∧
    ∀ s : String, s.data.filter isAmountChar = [] → parse_amount s = none := by
  have hbig : parse_amount "$1,234,567.89" =
      some ((digitsToNat ['1','2','3','4','5','6','7'] : ℚ) +
        (digitsToNat ['8','9'] : ℚ) / 10 ^ 2) := rfl
  refine ⟨?_, by decide, by decide, ?_⟩
  · rw [hbig, show digitsToNat ['1','2','3','4','5','6','7'] = 1234567 from by decide,
      show digitsToNat ['8','9'] = 89 from by decide]
    norm_num
  · intro s h
    unfold parse_amount
    simp [h]

/-- C7 witness: the stripped-empty hypothesis discharged at `"xyz"`. -/
theorem c7_parse_amount_witness :
    "xyz".data.filter isAmountChar = [] ∧ parse_amount "xyz" = none :=
  ⟨by decide, c7_parse_amount_spec.2.2.2 "xyz" (by decide)⟩

/-- Rounding to 4 decimals moves a rational by at most `1 / 20000`. -/
theorem round4_err (x : ℚ) : |round4 x - x| ≤ 1 / 20000 := by
  unfold round4
  have h : |((round (x * 10000) : ℤ) : ℚ) - x * 10000| ≤ 1 / 2 := by
    rw [abs_sub_comm]
    exact abs_sub_round (x * 10000)
  have heq : ((round (x * 10000) : ℤ) : ℚ) / 10000 - x =
      (((round (x * 10000) : ℤ) : ℚ) - x * 10000) / 10000 := by ring
  rw [heq, abs_div, show |(10000 : ℚ)| = 10000 from by norm_num]
  linarith

/-- A concrete database on which TVPI differs from DPI + RVPI: one capital
call of 30001, one distribution of 1, one NAV adjustment of 1, so that
PIC = 30000, DPI = round4(1/30000) = 0, RVPI = 0, but
TVPI = round4(2/30000) = 0.0001. -/
def dbC6 : DbState :=
  { funds := [], documents := [], document_embeddings := []
    capital_calls := [⟨1, ⟨2020, 1, 15⟩, "Call 1", 30001, "c"⟩]
    distributions := [⟨1, ⟨2021, 3, 1⟩, "Dividend", 1, false, "d"⟩]
    adjustments := [⟨1, ⟨2021, 12, 31⟩, "NAV_ADJUSTMENT", 1, "nav"⟩]
    nextFundId := 2 }

/-- C6 counterexample: because each ratio is rounded to 4 decimals
separately, `calculate_tvpi` is not the sum of `calculate_dpi` and
`calculate_rvpi` on `dbC6`. -/
theorem c6_tvpi_counterexample :
    calculate_tvpi dbC6 1 ≠ calculate_dpi dbC6 1 + calculate_rvpi dbC6 1 := by
  with_unfolding_all decide

/-- C6 amended: TVPI is the 4-decimal rounding of the sum of the unrounded
DPI and RVPI ratios (0 when PIC is 0), and therefore agrees with
DPI + RVPI only up to the accumulated rounding error `3 / 20000`; exact
equality `TVPI = DPI + RVPI` fails (see `c6_tvpi_counterexample`). -/
theorem c6_tvpi_amended (db : DbState) (fund_id : ℕ) :
    calculate_tvpi db fund_id =
      (if calculate_pic db fund_id = 0 then 0
       else round4 (calculate_total_distributions db fund_id / calculate_pic db fund_id +
         calculate_nav db fund_id / calculate_pic db fund_id)) ∧
    |calculate_tvpi db fund_id -
      (calculate_dpi db fund_id + calculate_rvpi db fund_id)| ≤ 3 / 20000 := by
  have htv : calculate_tvpi db fund_id =
      (if calculate_pic db fund_id = 0 then 0
       else round4 (calculate_total_distributions db fund_id / calculate_pic db fund_id +
         calculate_nav db fund_id / calculate_pic db fund_id)) := by
    unfold calculate_tvpi
    by_cases h : calculate_pic db fund_id = 0
    · rw [if_pos h, if_pos h]
    · rw [if_neg h, if_neg h, div_add_div_same]
  refine ⟨htv, ?_⟩
  by_cases h : calculate_pic db fund_id = 0
  · rw [htv, if_pos h]
    unfold calculate_dpi calculate_rvpi
    rw [if_pos h, if_pos h]
    norm_num
  · rw [htv, if_neg h]
    unfold calculate_dpi calculate_rvpi
    rw [if_neg h, if_neg h]
    have h1 := round4_err (calculate_total_distributions db fund_id / calculate_pic db fund_id +
      calculate_nav db fund_id / calculate_pic db fund_id)
    have h2 := round4_err (calculate_total_distributions db fund_id / calculate_pic db fund_id)
    have h3 := round4_err (calculate_nav db fund_id / calculate_pic db fund_id)
    rw [abs_le] at h1 h2 h3 ⊢
    constructor <;> [linarith; linarith]

/-- C4: `calculate_irr` returns null when a cash-flow query raises (the
exception is caught at its boundary), null when there are fewer than two
cash-flow entries, null when the solver's outcome is undefined or
non-finite, and otherwise the solver's rate times 100 rounded to 2
decimals. -/
theorem c4_irr_guards (o : DbOracle) (solver : List ℚ → Option ℚ)
    (fund_id : ℕ) :
    (∀ e, o.callFlows fund_id = Except.error e →
      calculate_irrX solver o fund_id = none) ∧
    (∀ e, o.distFlows fund_id = Except.error e →
      calculate_irrX solver o fund_id = none) ∧
    (∀ cs ds, o.callFlows fund_id = Except.ok cs →
      o.distFlows fund_id = Except.ok ds →
      ((assemble_cash_flows cs ds).length < 2 →
        calculate_irrX solver o fund_id = none) ∧
      (2 ≤ (assemble_cash_flows cs ds).length →
        solver ((assemble_cash_flows cs ds).map (fun cf => cf.amount)) = none →
        calculate_irrX solver o fund_id = none) ∧
      (∀ r, 2 ≤ (assemble_cash_flows cs ds).length →
        solver ((assemble_cash_flows cs ds).map (fun cf => cf.amount)) = some r →
        calculate_irrX solver o fund_id = some (round2 (r * 100)))) := by
  refine ⟨?_, ?_, ?_⟩
  · intro e he
    unfold calculate_irrX get_cash_flowsX
    simp [he, bind, Except.bind]
  · intro e he
    unfold calculate_irrX get_cash_flowsX
    cases hc : o.callFlows fund_id with
    | error e' => simp [hc, bind, Except.bind]
    | ok cs => simp [hc, he, bind, Except.bind]
  · intro cs ds hc hd
    refine ⟨?_, ?_, ?_⟩
    · intro hlen
      unfold calculate_irrX get_cash_flowsX
      simp [hc, hd, hlen, bind, Except.bind, pure, Except.pure]
    · intro hlen hs
      unfold calculate_irrX get_cash_flowsX
      simp [hc, hd, Nat.not_lt.mpr hlen, hs, bind, Except.bind, pure, Except.pure]
    · intro r hlen hs
      unfold calculate_irrX get_cash_flowsX
      simp [hc, hd, Nat.not_lt.mpr hlen, hs, bind, Except.bind, pure, Except.pure]

/-- A concrete oracle with one capital call and one distribution, for the
C4 witness. -/
def oC4 : DbOracle :=
  { sumCalls := fun _ => Except.ok 0
    sumAdjustments := fun _ => Except.ok 0
    sumDistributions := fun _ => Except.ok 0
    sumNavAdjustments := fun _ => Except.ok 0
    callFlows := fun _ => Except.ok [(⟨2020, 1, 1⟩, 100)]
    distFlows := fun _ => Except.ok [(⟨2021, 1, 1⟩, 120)] }

/-- A solver stub returning the rate 0.15, for the C4 witness. -/
def solverC4 : List ℚ → Option ℚ := fun _ => some (3 / 20)

/-- C4 witness: on `oC4` the assembled series has two entries and the
solver's rate 0.15 comes back as a percentage rounded to 2 decimals. -/
theorem c4_irr_guards_witness :
    calculate_irrX solverC4 oC4 1 = some (round2 (3 / 20 * 100)) := by
  have hlen : 2 ≤ (assemble_cash_flows [((⟨2020, 1, 1⟩ : PDate), (100 : ℚ))]
      [((⟨2021, 1, 1⟩ : PDate), (120 : ℚ))]).length := by
    simp [assemble_cash_flows]
    split <;> simp
  exact (((c4_irr_guards oC4 solverC4 1).2.2 _ _ rfl rfl).2.2) (3 / 20) hlen rfl

/-- An oracle whose capital-call sum query fails, for the C5
counterexample. -/
def oC5bad : DbOracle :=
  { sumCalls := fun _ => Except.error "database failure"
    sumAdjustments := fun _ => Except.ok 0
    sumDistributions := fun _ => Except.ok 0
    sumNavAdjustments := fun _ => Except.ok 0
    callFlows := fun _ => Except.ok []
    distFlows := fun _ => Except.ok [] }

/-- A solver stub that never converges, used by the C5 theorems. -/
def solverNone : List ℚ → Option ℚ := fun _ => none

/-- C5 counterexample: an internal error inside `calculate_pic` is NOT
caught at that metric's boundary — it aborts the whole
`calculate_all_metrics` aggregate, so no sibling metric is computed and no
aggregate is returned. -/
theorem c5_all_metrics_counterexample :
    calculate_all_metricsX solverNone oC5bad 1 =
      Except.error "database failure" := rfl

/-- C5 amended: `calculate_all_metrics` coerces every null/zero metric to 0
and an error in the four self-guarded metrics (IRR, NAV, RVPI, TVPI) does
not abort the aggregate, but `calculate_pic`, `calculate_total_distributions`
and `calculate_dpi` are unguarded, so an error there propagates and aborts
the sibling metrics. -/
theorem c5_all_metrics_amended (o : DbOracle) (solver : List ℚ → Option ℚ)
    (fund_id : ℕ) :
    (∀ e, o.sumCalls fund_id = Except.error e →
      calculate_all_metricsX solver o fund_id = Except.error e) ∧
    (∀ a b c, o.sumCalls fund_id = Except.ok a →
      o.sumAdjustments fund_id = Except.ok b →
      o.sumDistributions fund_id = Except.ok c →
      ∃ m, calculate_all_metricsX solver o fund_id = Except.ok m) ∧
    (∀ m, calculate_all_metricsX solver o fund_id = Except.ok m →
      m.irr = coerce0 (calculate_irrX solver o fund_id) ∧
      m.nav = coerce0 (calculate_navX o fund_id) ∧
      m.rvpi = coerce0 (calculate_rvpiX o fund_id) ∧
      m.tvpi = coerce0 (calculate_tvpiX o fund_id)) := by
  refine ⟨?_, ?_, ?_⟩
  · intro e he
    unfold calculate_all_metricsX calculate_picX
    simp [he, bind, Except.bind]
  · intro a b c ha hb hc
    unfold calculate_all_metricsX calculate_dpiX calculate_picX
      calculate_total_distributionsX
    simp [ha, hb, hc, bind, Except.bind, pure, Except.pure]
  · intro m hm
    unfold calculate_all_metricsX calculate_dpiX calculate_picX
      calculate_total_distributionsX at hm
    cases ha : o.sumCalls fund_id with
    | error e => simp [ha, bind, Except.bind] at hm
    | ok a =>
      cases hb : o.sumAdjustments fund_id with
      | error e => simp [ha, hb, bind, Except.bind] at hm
      | ok b =>
        cases hc : o.sumDistributions fund_id with
        | error e => simp [ha, hb, hc, bind, Except.bind, pure, Except.pure] at hm
        | ok c =>
          simp [ha, hb, hc, bind, Except.bind, pure, Except.pure] at hm
          subst hm
          exact ⟨rfl, rfl, rfl, rfl⟩

/-- An oracle whose NAV and cash-flow queries fail but whose sum queries
succeed, for the C5 witness. -/
def oC5ok : DbOracle :=
  { sumCalls := fun _ => Except.ok 100
    sumAdjustments := fun _ => Except.ok 20
    sumDistributions := fun _ => Except.ok 50
    sumNavAdjustments := fun _ => Except.error "nav query failed"
    callFlows := fun _ => Except.error "flow query failed"
    distFlows := fun _ => Except.error "flow query failed" }

/-- C5 witness: with the three sum queries succeeding, the aggregate is
returned even though the NAV and cash-flow queries fail, and the failed
metrics are coerced to 0. -/
theorem c5_all_metrics_witness :
    ∃ m, calculate_all_metricsX solverNone oC5ok 1 = Except.ok m ∧
      m.irr = 0 ∧ m.nav = 0 := by
  obtain ⟨m, hm⟩ :=
    (c5_all_metrics_amended oC5ok solverNone 1).2.1 100 20 50 rfl rfl rfl
  have hf := (c5_all_metrics_amended oC5ok solverNone 1).2.2 m hm
  refine ⟨m, hm, ?_, ?_⟩
  · rw [hf.1]
    rfl
  · rw [hf.2.1]
    rfl

/-- C1: `process_document` never lets an exception escape (the result is
always a structured success or `{status: "failed", document_id, error}`),
treats whitespace-only extracted text as a fatal error with that exact
message, and on every failure returns the database exactly as it was —
every write of the call is rolled back, no partial rows survive. -/
theorem c1_process_document_atomic (env : Env) (st : DbState)
    (docId fundId : ℕ) :
    (∀ e, (process_document env st docId fundId).1 =
        ProcessResult.failed docId e →
      (process_document env st docId fundId).2 = st) ∧
    (env.pdf_text.data.all isWsChar = true →
      (process_document env st docId fundId).1 =
        ProcessResult.failed docId "PDF contains no extractable text") ∧
    ((∃ s, (process_document env st docId fundId).1 =
        ProcessResult.success s) ∨
      (∃ e, (process_document env st docId fundId).1 =
          ProcessResult.failed docId e ∧
        (process_document env st docId fundId).2 = st)) := by
  refine ⟨?_, ?_, ?_⟩
  · intro e he
    unfold process_document at he ⊢
    cases h : runBody env st docId fundId with
    | ok p =>
      obtain ⟨st', s⟩ := p
      rw [h] at he
      exact absurd he (by simp)
    | error e' => rfl
  · intro hws
    have h : runBody env st docId fundId =
        Except.error "PDF contains no extractable text" := by
      unfold runBody
      simp [hws]
    unfold process_document
    rw [h]
  · cases h : runBody env st docId fundId with
    | ok p =>
      obtain ⟨st', s⟩ := p
      left
      exact ⟨s, by unfold process_document; rw [h]⟩
    | error e =>
      right
      exact ⟨e, by unfold process_document; rw [h],
        by unfold process_document; rw [h]⟩

/-- A call environment whose extracted text is whitespace-only, for the C1
witness. -/
def envC1 : Env :=
  { pdf_text := "   "
    embed := fun _ => Except.ok []
    writeFault := fun _ _ => none
    commitFault := none }

/-- A non-empty committed database, for the C1 witness. -/
def stC1 : DbState :=
  { funds := [⟨1, "Old Fund", "Old GP", some 2015, "Private Equity"⟩]
    documents := [⟨7, 1⟩], document_embeddings := []
    capital_calls := [⟨1, ⟨2016, 5, 1⟩, "Call 1", 10, "kept"⟩]
    distributions := [], adjustments := [], nextFundId := 2 }

/-- C1 witness: a whitespace-only document fails with the exact error and
leaves the committed state untouched. -/
theorem c1_process_document_witness :
    (process_document envC1 stC1 7 1).1 =
      ProcessResult.failed 7 "PDF contains no extractable text" ∧
    (process_document envC1 stC1 7 1).2 = stC1 := by
  have hws : envC1.pdf_text.data.all isWsChar = true := by decide
  have hfail := (c1_process_document_atomic envC1 stC1 7 1).2.1 hws
  exact ⟨hfail, (c1_process_document_atomic envC1 stC1 7 1).1 _ hfail⟩

/-- A successful section match implies the section header occurs in the
text. -/
theorem sectionScan_some_contains (header tableHdr : List Char)
    (stops : List (List Char)) :
    ∀ cs x, sectionScan header tableHdr stops cs = some x →
      containsCI header cs = true := by
  intro cs
  induction cs with
  | nil =>
    intro x h
    simp [sectionScan] at h
  | cons c rest ih =>
    intro x h
    unfold sectionScan at h
    unfold containsCI
    cases ht : trySectionAt header tableHdr (c :: rest) with
    | some tail =>
      have hm : (matchCI header (c :: rest)).isSome = true := by
        unfold trySectionAt at ht
        cases hmc : matchCI header (c :: rest) with
        | none => rw [hmc] at ht; exact absurd ht (by simp)
        | some r => simp
      simp [hm]
    | none =>
      rw [ht] at h
      simp [ih x h]

/-- C8: a candidate record whose date or amount fails to parse is dropped
and extraction continues on the remaining candidates; capital calls and
distributions additionally drop a zero amount while adjustments accept it;
and when a section header is absent the parser returns the empty record
list rather than failing. -/
theorem c8_record_drop_policy :
    (∀ t : String, containsCI "Capital Calls".data t.data = false →
      parse_capital_calls t = []) ∧
    (∀ t : String, containsCI "Adjustments".data t.data = false →
      parse_adjustments t = []) ∧
    (∀ (c : CallCand) (cs : List CallCand),
      parse_date c.dateS = none ∨ parse_amount c.amountS = none →
      (c :: cs).filterMap acceptCapCall = cs.filterMap acceptCapCall) ∧
    (∀ (c : DistCand) (cs : List DistCand),
      parse_date c.dateS = none ∨ parse_amount c.amountS = none →
      (c :: cs).filterMap acceptDist = cs.filterMap acceptDist) ∧
    (∀ (c : AdjCand) (cs : List AdjCand),
      parse_date c.dateS = none ∨ parse_amount c.amountS = none →
      (c :: cs).filterMap acceptAdj = cs.filterMap acceptAdj) ∧
    (∀ c : CallCand, parse_amount c.amountS = some 0 →
      acceptCapCall c = none) ∧
    (∀ c : DistCand, parse_amount c.amountS = some 0 → acceptDist c = none) ∧
    (∀ (c : AdjCand) (d : PDate), parse_date c.dateS = some d →
      parse_amount c.amountS = some 0 →
      acceptAdj c = some ⟨d, pyStrip c.typeS, 0, pyStrip c.descS⟩) := by
  refine ⟨?_, ?_, ?_, ?_, ?_, ?_, ?_, ?_⟩
  · intro t h
    unfold parse_capital_calls
    cases hs : sectionScan "Capital Calls".data
        "Date Call Number Amount Description".data
        ["Distributions".data, "Adjustments".data, "Performance Summary".data]
        t.data with
    | none => rfl
    | some raw =>
      exact absurd (sectionScan_some_contains _ _ _ t.data raw hs)
        (by rw [h]; simp)
  · intro t h
    unfold parse_adjustments
    cases hs : sectionScan "Adjustments".data
        "Date Type Amount Description".data
        ["Performance Summary".data, "Fund Strategy".data] t.data with
    | none => rfl
    | some raw =>
      exact absurd (sectionScan_some_contains _ _ _ t.data raw hs)
        (by rw [h]; simp)
  · intro c cs h
    have hnone : acceptCapCall c = none := by
      rcases h with h | h <;>
        cases hd : parse_date c.dateS <;>
          cases ha : parse_amount c.amountS <;>
            simp_all [acceptCapCall]
    simp [List.filterMap_cons, hnone]
  · intro c cs h
    have hnone : acceptDist c = none := by
      rcases h with h | h <;>
        cases hd : parse_date c.dateS <;>
          cases ha : parse_amount c.amountS <;>
            simp_all [acceptDist]
    simp [List.filterMap_cons, hnone]
  · intro c cs h
    have hnone : acceptAdj c = none := by
      rcases h with h | h <;>
        cases hd : parse_date c.dateS <;>
          cases ha : parse_amount c.amountS <;>
            simp_all [acceptAdj]
    simp [List.filterMap_cons, hnone]
  · intro c h
    cases hd : parse_date c.dateS <;> simp [acceptCapCall, hd, h]
  · intro c h
    cases hd : parse_date c.dateS <;> simp [acceptDist, hd, h]
  · intro c d hd ha
    unfold acceptAdj
    rw [hd, ha]

/-- C8 witness: the drop policy and header-absence cases at concrete
inputs — a missing section header yields `[]`, an invalid month is dropped
while scanning continues, a zero capital-call amount is dropped, and a zero
adjustment amount is accepted. -/
theorem c8_record_drop_witness :
    parse_capital_calls "no transactions in this text" = [] ∧
    List.filterMap acceptCapCall
      [(⟨"2023-13-01", "Call 1", "100", "bad"⟩ : CallCand),
       (⟨"2023-01-15", "Call 2", "100", "good"⟩ : CallCand)] =
      List.filterMap acceptCapCall
        [(⟨"2023-01-15", "Call 2", "100", "good"⟩ : CallCand)] ∧
    acceptCapCall ⟨"2023-01-15", "Call 1", "0", "zero"⟩ = none ∧
    acceptAdj ⟨"2023-01-15", "Fee", "0", "zero"⟩ =
      some ⟨⟨2023, 1, 15⟩, "Fee", 0, "zero"⟩ := by
  refine ⟨?_, ?_, ?_, ?_⟩
  · exact c8_record_drop_policy.1 _ (by decide)
  · exact c8_record_drop_policy.2.2.1 _ _ (Or.inl (by decide))
  · exact c8_record_drop_policy.2.2.2.2.2.1 _ (by decide)
  · have h := c8_record_drop_policy.2.2.2.2.2.2.2
      ⟨"2023-01-15", "Fee", "0", "zero"⟩ ⟨2023, 1, 15⟩ (by decide) (by decide)
    rw [h]
    decide

/-- C9: the cash-flow series contains exactly one entry per capital call
(amount negated) and one per distribution (amount unchanged) — a
permutation of the two mapped row lists — and is sorted ascending by
date. -/
theorem c9_cash_flow_series (db : DbState) (fund_id : ℕ) :
    (get_cash_flows db fund_id).Perm
      ((callRows db fund_id).map mkCallEntry ++
        (distRows db fund_id).map mkDistEntry) ∧
    List.Sorted cfLe (get_cash_flows db fund_id) := by
  unfold get_cash_flows assemble_cash_flows
  constructor
  · exact (List.perm_insertionSort cfLe _).trans
      (List.Perm.append
        ((List.perm_insertionSort rowLe (callRows db fund_id)).map mkCallEntry)
        ((List.perm_insertionSort rowLe (distRows db fund_id)).map mkDistEntry))
  · exact List.sorted_insertionSort cfLe _

/-- No distribution entry precedes a capital-call entry dated the same day. -/
def noDistBeforeCall (a b : CashFlow) : Prop :=
  a.date = b.date →
    ¬(a.kind = CashKind.distribution ∧ b.kind = CashKind.capital_call)

/-- Any list without capital-call entries trivially satisfies the C10
pairwise property. -/
theorem pairwise_ndbc_of_no_calls (l : List CashFlow)
    (h : ∀ x ∈ l, x.kind ≠ CashKind.capital_call) :
    l.Pairwise noDistBeforeCall := by
  induction l with
  | nil => exact List.Pairwise.nil
  | cons a t ih =>
    refine List.Pairwise.cons ?_ (ih ?_)
    · intro b hb _ hk
      exact h b (List.mem_cons_of_mem a hb) hk.2
    · intro x hx
      exact h x (List.mem_cons_of_mem a hx)

/-- Stability of `orderedInsert`: inserting a capital-call entry preserves
the C10 pairwise property — the entry lands before every entry it is
date-tied with. -/
theorem pairwise_ndbc_orderedInsert (x : CashFlow)
    (hx : x.kind = CashKind.capital_call) :
    ∀ l : List CashFlow, l.Pairwise noDistBeforeCall →
      (l.orderedInsert cfLe x).Pairwise noDistBeforeCall := by
  intro l
  induction l with
  | nil =>
    intro _
    simp only [List.orderedInsert_nil]
    exact List.pairwise_singleton _ _
  | cons y ys ih =>
    intro h
    rw [List.orderedInsert]
    split
    · refine List.Pairwise.cons ?_ h
      intro z _ _ hk
      rw [hx] at hk
      exact absurd hk.1 (by simp)
    · next hr =>
      refine List.Pairwise.cons ?_ (ih h.of_cons)
      intro z hz
      rw [List.mem_orderedInsert] at hz
      rcases hz with rfl | hz
      · intro hdate _
        refine hr ?_
        unfold cfLe
        rw [hdate]
        exact dateLe_refl _
      · exact List.rel_of_pairwise_cons h hz
/-- Sorting calls-then-distributions with the stable insertion sort keeps
every capital call ahead of every same-date distribution. -/
theorem pairwise_ndbc_sort (A B : List CashFlow)
    (hA : ∀ x ∈ A, x.kind = CashKind.capital_call)
    (hB : ∀ x ∈ B, x.kind ≠ CashKind.capital_call) :
    (List.insertionSort cfLe (A ++ B)).Pairwise noDistBeforeCall := by
  induction A with
  | nil =>
    simp only [List.nil_append]
    apply pairwise_ndbc_of_no_calls
    intro x hx
    exact hB x ((List.mem_insertionSort cfLe).mp hx)
  | cons a A' ih =>
    simp only [List.cons_append, List.insertionSort]
    exact pairwise_ndbc_orderedInsert a (hA a (List.mem_cons_self a A')) _
      (ih (fun x hx => hA x (List.mem_cons_of_mem a hx)))

/-- C10: capital calls are appended before distributions and the final
date sort is stable, so in the assembled series no distribution entry ever
precedes a capital-call entry bearing the same date — every capital call of
a date comes before every distribution of that date. -/
theorem c10_same_date_tie_break (db : DbState) (fund_id : ℕ) :
    (get_cash_flows db fund_id).Pairwise noDistBeforeCall := by
  unfold get_cash_flows assemble_cash_flows
  apply pairwise_ndbc_sort
  · intro x hx
    rw [List.mem_map] at hx
    obtain ⟨r, _, rfl⟩ := hx
    rfl
  · intro x hx
    rw [List.mem_map] at hx
    obtain ⟨r, _, rfl⟩ := hx
    simp [mkDistEntry]
